import Mathlib

/-!
Verification of the coinmcp7 MCP server (src/server.py) against its
natural-language specification.

Every tool handler in server.py is structurally identical boilerplate:

    api_key = get_active_api_key(context)
    try:
        url = "https://pro-api.coinmarketcap.com" + <path>
        params = { <name>: <arg or str(arg).lower() for bools>, ... }
        params = {k: v for k, v in params.items() if v is not None}
        headers = {}
        if api_key:
            headers["X-CMC_PRO_API_KEY"] = api_key
            headers["Authorization"] = "Bearer " + api_key
            headers["X-API-Key"] = api_key
        response = requests.get(url, params=params, headers=headers, timeout=30)
        response.raise_for_status()
        return response.json()
    except Exception as e:
        return {"error": str(e), "endpoint": <path>}

We embed this shape once (`runTool`) over a per-tool descriptor
(`ToolSpec`) that records exactly the signature defaults, the params-dict
entries and the URL/endpoint strings of each of the 27 generated handlers.
The network and the JSON parser are modelled as an oracle
(`HttpRequest → HttpOutcome`): the handler issues requests and the oracle
answers with a response or a raised-exception message.
-/

namespace CoinMcp

/-- Python values as they occur in a handler's params dict: the argument
types are `str`, `int`, `float`, `bool` and (for unset optionals) `None`.
A finite float is carried by its sign `neg`, its shortest round-trip
decimal significand `sig` (the significant digits read as a number, with
no trailing zeros in canonical form), and its decimal-point position
`decpt`, so that the value is `±0.⟨digits of sig⟩ × 10 ^ decpt`; this is
the decimal CPython's repr machinery chooses for the IEEE double before
formatting it. -/
inductive PyVal where
  | vStr (s : String)
  | vInt (n : Int)
  | vFloat (neg : Bool) (sig : Nat) (decpt : Int)
  | vBool (b : Bool)
  | vNone
  deriving DecidableEq, Repr

/-- Python `str()` on a finite float, following CPython (pystrtod.c,
format code r): the shortest round-trip significand digits are laid out
positionally exactly when `-4 < decpt ≤ 16`, gaining a trailing ".0"
when no fractional digits remain (str(10.0) = "10.0"); outside that
range exponent notation `d.ddde±XX` is used with displayed exponent
`decpt - 1` padded to at least two digits (str(1e-05) = "1e-05",
str(1e16) = "1e+16"). -/
def pyFloatRepr (neg : Bool) (sig : Nat) (decpt : Int) : String :=
  let ds := Nat.toDigits 10 sig
  let n : Int := Int.ofNat ds.length
  let sign := if neg then "-" else ""
  if decpt ≤ -4 ∨ 16 < decpt then
    let e := decpt - 1
    let esign := if e < 0 then "-" else "+"
    let ea := e.natAbs
    let estr := if ea < 10 then "0" ++ toString ea else toString ea
    let mant :=
      match ds with
      | [] => "0"
      | [d] => String.mk [d]
      | d :: rest => String.mk (d :: '.' :: rest)
    sign ++ mant ++ "e" ++ esign ++ estr
  else if decpt ≤ 0 then
    sign ++ "0." ++ String.mk (List.replicate decpt.natAbs '0') ++ String.mk ds
  else if n ≤ decpt then
    sign ++ String.mk ds ++ String.mk (List.replicate (decpt - n).toNat '0') ++ ".0"
  else
    sign ++ String.mk (ds.take decpt.toNat) ++ "." ++ String.mk (ds.drop decpt.toNat)

/-- A character of plain positional decimal text: a digit, a sign or a
decimal point — no exponent marker. -/
def decimalTextChar (c : Char) : Bool :=
  c.isDigit || c == '.' || c == '-'

/-- A string is plain decimal text when all its characters are. -/
def isDecimalText (s : String) : Bool :=
  s.data.all decimalTextChar

/-- Python `str(x)` on a params-dict value: ints print in decimal,
floats per `pyFloatRepr`, `str(True) = "True"`, `str(None) = "None"`.
This is also how the `requests` library serializes each query value when
encoding the URL. -/
def pyStr : PyVal → String
  | .vStr s => s
  | .vInt n => toString n
  | .vFloat ng sg dp => pyFloatRepr ng sg dp
  | .vBool b => if b then "True" else "False"
  | .vNone => "None"

/-- ASCII lowercase of one character (Python `str.lower` restricted to
ASCII, which covers every string the handlers lowercase). -/
def charLower (c : Char) : Char :=
  if 'A' ≤ c ∧ c ≤ 'Z' then Char.ofNat (c.toNat + 32) else c

/-- ASCII lowercase of a string. -/
def strLower (s : String) : String :=
  String.mk (s.data.map charLower)

/-- Python `str(x).lower()`, the expression the source applies to its
bool-typed parameters (`include_metals`, `skip_invalid`). -/
def pyStrLower (v : PyVal) : String :=
  strLower (pyStr v)

/-- Declared Python annotation of a parameter. -/
inductive PyTy where
  | pstr
  | pint
  | pfloat
  | pbool
  deriving DecidableEq, Repr

/-- One declared parameter of a handler: its name, annotation,
whether the annotation is `Optional[...]`, the Python default value from
the signature, and whether the params dict wraps it as `str(x).lower()`. -/
structure Param where
  name : String
  ty : PyTy
  optional : Bool
  dflt : PyVal
  wrapStrLower : Bool
  deriving DecidableEq, Repr

/-- Descriptor of one generated tool handler: the exposed name, the fixed
upstream path appended to the base URL, the endpoint string used in the
error envelope, and the declared parameters in params-dict order. -/
structure ToolSpec where
  toolName : String
  path : String
  endpoint : String
  params : List Param
  deriving DecidableEq, Repr

/-- A caller-supplied argument set: a sparse name-to-value mapping. -/
abbrev Args := List (String × PyVal)

/-- Looks up a caller-supplied argument by parameter name. -/
def lookupArg (args : Args) (n : String) : Option PyVal :=
  (args.find? (fun kv => kv.1 == n)).map (fun kv => kv.2)

/-- The Python-level value a parameter binds to: the supplied argument if
present, otherwise the signature default. -/
def paramPyValue (args : Args) (p : Param) : PyVal :=
  match lookupArg args p.name with
  | some v => v
  | none => p.dflt

/-- The entry the handler writes into its params dict for `p`: the bound
value, wrapped as `str(x).lower()` for the bool-typed parameters. -/
def entryValue (args : Args) (p : Param) : PyVal :=
  if p.wrapStrLower then .vStr (pyStrLower (paramPyValue args p)) else paramPyValue args p

/-- The params dict as first built by the handler, in source order. -/
def buildParamsDict (t : ToolSpec) (args : Args) : List (String × PyVal) :=
  t.params.map (fun p => (p.name, entryValue args p))

/-- The params dict after the comprehension
`{k: v for k, v in params.items() if v is not None}`. -/
def normalizedQuery (t : ToolSpec) (args : Args) : List (String × PyVal) :=
  (buildParamsDict t args).filter (fun kv => decide (kv.2 ≠ PyVal.vNone))

/-- The outbound query string pairs: `requests` renders each remaining
value with `str`. -/
def outboundQuery (t : ToolSpec) (args : Args) : List (String × String) :=
  (normalizedQuery t args).map (fun kv => (kv.1, pyStr kv.2))

/-- The headers block: `if api_key:` is Python truthiness, so `None` and
the empty string both yield an empty header map; otherwise the same
credential is attached under the three header names. -/
def buildHeaders : Option String → List (String × String)
  | none => []
  | some k =>
      if k = "" then []
      else
        [("X-CMC_PRO_API_KEY", k),
         ("Authorization", "Bearer " ++ k),
         ("X-API-Key", k)]

/-- JSON values, for response bodies and the returned envelopes. -/
inductive Json where
  | jNull
  | jBool (b : Bool)
  | jNum (mantissa : Int) (shift : Nat)
  | jStr (s : String)
  | jArr (xs : List Json)
  | jObj (fields : List (String × Json))

/-- Top-level keys of a JSON object (empty for non-objects). -/
def jsonTopKeys : Json → List String
  | .jObj fields => fields.map (fun kv => kv.1)
  | _ => []

/-- The uniform failure envelope `{"error": str(e), "endpoint": path}`
returned from the handler's `except` block. -/
def errorEnvelope (msg ep : String) : Json :=
  .jObj [("error", .jStr msg), ("endpoint", .jStr ep)]

/-- An upstream HTTP response as the handler observes it: status code,
reason phrase, final URL, and the outcome of `response.json()` (the
parsed value, or the decode exception rendered as a string). -/
structure HttpResponse where
  status : Nat
  reason : String
  respUrl : String
  jsonResult : Except String Json

/-- The single outbound request a handler issues. -/
structure HttpRequest where
  method : String
  url : String
  query : List (String × String)
  headers : List (String × String)
  timeout : Nat

/-- Outcome of `requests.get`: either a response object, or the call
raised (timeout, connection failure) with the exception's string. -/
inductive HttpOutcome where
  | resp (r : HttpResponse)
  | raised (msg : String)

/-- Models `requests.Response.raise_for_status`: it raises `HTTPError`
exactly for status codes 400-599, with a message of the form
`"<status> Client Error: <reason> for url: <url>"` (4xx) or
`"<status> Server Error: <reason> for url: <url>"` (5xx); any other
status (including 1xx and 3xx) raises nothing. -/
def raiseForStatusMsg (r : HttpResponse) : Option String :=
  if 400 ≤ r.status ∧ r.status < 500 then
    some (toString r.status ++ (" Client Error: " ++ r.reason ++ " for url: " ++ r.respUrl))
  else if 500 ≤ r.status ∧ r.status < 600 then
    some (toString r.status ++ (" Server Error: " ++ r.reason ++ " for url: " ++ r.respUrl))
  else none

/-- The fixed upstream host every handler prefixes to its path. -/
def baseUrl : String := "https://pro-api.coinmarketcap.com"

/-- The single GET request a handler builds: fixed URL, normalized query,
credential headers, and the literal `timeout=30` from the source. -/
def mkRequest (t : ToolSpec) (args : Args) (apiKey : Option String) : HttpRequest :=
  { method := "GET"
    url := baseUrl ++ t.path
    query := outboundQuery t args
    headers := buildHeaders apiKey
    timeout := 30 }

/-- What the handler returns once the oracle has answered its request:
`response.json()` on success, and the `{"error", "endpoint"}` envelope
whenever `requests.get` raised, `raise_for_status` raised, or the body
failed to parse — the `except Exception` block catches each of these. -/
def toolResponse (t : ToolSpec) (o : HttpOutcome) : Json :=
  match o with
  | .raised msg => errorEnvelope msg t.endpoint
  | .resp r =>
    match raiseForStatusMsg r with
    | some msg => errorEnvelope msg t.endpoint
    | none =>
      match r.jsonResult with
      | .ok j => j
      | .error msg => errorEnvelope msg t.endpoint

/-- One full handler invocation: build the request, hand it to the
network oracle, map the outcome.  The second component is the trace of
outbound requests the invocation issued. -/
def runTool (t : ToolSpec) (args : Args) (apiKey : Option String)
    (net : HttpRequest → HttpOutcome) : Json × List HttpRequest :=
  (toolResponse t (net (mkRequest t args apiKey)), [mkRequest t args apiKey])

/-! The catalog below transcribes every handler signature of server.py:
one `Param` per signature line, in params-dict order (which coincides with
signature order in every handler).  Shorthand constructors, one per
signature shape that occurs. -/

/-- `x: Optional[str] = None`. -/
def optStr (n : String) : Param := ⟨n, .pstr, true, .vNone, false⟩

/-- `x: Optional[int] = None`. -/
def optInt (n : String) : Param := ⟨n, .pint, true, .vNone, false⟩

/-- `x: Optional[float] = None`. -/
def optFloat (n : String) : Param := ⟨n, .pfloat, true, .vNone, false⟩

/-- `x: str = "<s>"`. -/
def strDef (n s : String) : Param := ⟨n, .pstr, false, .vStr s, false⟩

/-- `x: int = <v>`. -/
def intDef (n : String) (v : Int) : Param := ⟨n, .pint, false, .vInt v, false⟩

/-- `x: float = <v>` with an integer default literal. -/
def floatDef (n : String) (v : Int) : Param := ⟨n, .pfloat, false, .vInt v, false⟩

/-- `x: bool = <b>`; the params dict writes `str(x).lower()` for these. -/
def boolDef (n : String) (b : Bool) : Param := ⟨n, .pbool, false, .vBool b, true⟩

/-- GET /v1/cryptocurrency/map. -/
def coinmarketcap_id_map : ToolSpec :=
  { toolName := "coinmarketcap_id_map"
    path := "/v1/cryptocurrency/map"
    endpoint := "/v1/cryptocurrency/map"
    params :=
      [strDef "listing_status" "active",
       intDef "start" 1,
       optInt "limit",
       strDef "sort" "id",
       optStr "symbol",
       strDef "aux" "platform,first_historical_data,last_historical_data,is_active"] }

/-- GET /v1/exchange/assets. -/
def exchange_assets : ToolSpec :=
  { toolName := "exchange_assets"
    path := "/v1/exchange/assets"
    endpoint := "/v1/exchange/assets"
    params := [optStr "id"] }

/-- GET /v1/exchange/map. -/
def coinmarketcap_id_map_10a0 : ToolSpec :=
  { toolName := "coinmarketcap_id_map_10a0"
    path := "/v1/exchange/map"
    endpoint := "/v1/exchange/map"
    params :=
      [strDef "listing_status" "active",
       optStr "slug",
       intDef "start" 1,
       optInt "limit",
       strDef "sort" "id",
       strDef "aux" "first_historical_data,last_historical_data,is_active",
       optStr "crypto_id"] }

/-- GET /v1/fiat/map. -/
def coinmarketcap_id_map_0es7 : ToolSpec :=
  { toolName := "coinmarketcap_id_map_0es7"
    path := "/v1/fiat/map"
    endpoint := "/v1/fiat/map"
    params :=
      [intDef "start" 1,
       optInt "limit",
       strDef "sort" "id",
       boolDef "include_metals" false] }

/-- GET /v1/key/info. -/
def key_info : ToolSpec :=
  { toolName := "key_info"
    path := "/v1/key/info"
    endpoint := "/v1/key/info"
    params := [] }

/-- GET /v1/tools/postman. -/
def postman_conversion_v1 : ToolSpec :=
  { toolName := "postman_conversion_v1"
    path := "/v1/tools/postman"
    endpoint := "/v1/tools/postman"
    params := [] }

/-- GET /v3/fear-and-greed/historical. -/
def cmc_crypto_fear_and_greed_historical : ToolSpec :=
  { toolName := "cmc_crypto_fear_and_greed_historical"
    path := "/v3/fear-and-greed/historical"
    endpoint := "/v3/fear-and-greed/historical"
    params := [intDef "start" 1, intDef "limit" 50] }

/-- GET /v3/fear-and-greed/latest. -/
def cmc_crypto_fear_and_greed_latest : ToolSpec :=
  { toolName := "cmc_crypto_fear_and_greed_latest"
    path := "/v3/fear-and-greed/latest"
    endpoint := "/v3/fear-and-greed/latest"
    params := [] }

/-- GET /v1/cryptocurrency/listings/latest. -/
def listings_latest : ToolSpec :=
  { toolName := "listings_latest"
    path := "/v1/cryptocurrency/listings/latest"
    endpoint := "/v1/cryptocurrency/listings/latest"
    params :=
      [intDef "start" 1,
       intDef "limit" 100,
       optFloat "price_min",
       optFloat "price_max",
       optFloat "market_cap_min",
       optFloat "market_cap_max",
       optFloat "volume_24h_min",
       optFloat "volume_24h_max",
       optFloat "circulating_supply_min",
       optFloat "circulating_supply_max",
       optFloat "percent_change_24h_min",
       optFloat "percent_change_24h_max",
       optFloat "self_reported_circulating_supply_min",
       optFloat "self_reported_circulating_supply_max",
       optFloat "self_reported_market_cap_min",
       optFloat "self_reported_market_cap_max",
       optFloat "unlocked_market_cap_min",
       optFloat "unlocked_market_cap_max",
       optFloat "unlocked_circulating_supply_min",
       optFloat "unlocked_circulating_supply_max",
       optStr "convert",
       optStr "convert_id",
       strDef "sort" "market_cap",
       optStr "sort_dir",
       strDef "cryptocurrency_type" "all",
       strDef "tag" "all",
       strDef "aux" "num_market_pairs,cmc_rank,date_added,tags,platform,max_supply,circulating_supply,total_supply"] }

/-- GET /v1/cryptocurrency/listings/new. -/
def listings_new : ToolSpec :=
  { toolName := "listings_new"
    path := "/v1/cryptocurrency/listings/new"
    endpoint := "/v1/cryptocurrency/listings/new"
    params :=
      [intDef "start" 1,
       intDef "limit" 100,
       optStr "convert",
       optStr "convert_id",
       optStr "sort_dir"] }

/-- GET /v1/cryptocurrency/trending/gainers-losers. -/
def trending_gainers_losers : ToolSpec :=
  { toolName := "trending_gainers_losers"
    path := "/v1/cryptocurrency/trending/gainers-losers"
    endpoint := "/v1/cryptocurrency/trending/gainers-losers"
    params :=
      [intDef "start" 1,
       intDef "limit" 100,
       strDef "time_period" "24h",
       optStr "convert",
       optStr "convert_id",
       strDef "sort" "percent_change_24h",
       optStr "sort_dir"] }

/-- GET /v1/cryptocurrency/trending/latest. -/
def trending_latest : ToolSpec :=
  { toolName := "trending_latest"
    path := "/v1/cryptocurrency/trending/latest"
    endpoint := "/v1/cryptocurrency/trending/latest"
    params :=
      [intDef "start" 1,
       intDef "limit" 100,
       strDef "time_period" "24h",
       optStr "convert",
       optStr "convert_id"] }

/-- GET /v1/cryptocurrency/trending/most-visited. -/
def trending_most_visited : ToolSpec :=
  { toolName := "trending_most_visited"
    path := "/v1/cryptocurrency/trending/most-visited"
    endpoint := "/v1/cryptocurrency/trending/most-visited"
    params :=
      [intDef "start" 1,
       intDef "limit" 100,
       strDef "time_period" "24h",
       optStr "convert",
       optStr "convert_id"] }

/-- GET /v1/exchange/market-pairs/latest. -/
def market_pairs_latest : ToolSpec :=
  { toolName := "market_pairs_latest"
    path := "/v1/exchange/market-pairs/latest"
    endpoint := "/v1/exchange/market-pairs/latest"
    params :=
      [optStr "id",
       optStr "slug",
       intDef "start" 1,
       intDef "limit" 100,
       strDef "aux" "num_market_pairs,category,fee_type",
       optStr "matched_id",
       optStr "matched_symbol",
       strDef "category" "all",
       strDef "fee_type" "all",
       optStr "convert",
       optStr "convert_id"] }

/-- GET /v1/exchange/quotes/historical. -/
def quotes_historical : ToolSpec :=
  { toolName := "quotes_historical"
    path := "/v1/exchange/quotes/historical"
    endpoint := "/v1/exchange/quotes/historical"
    params :=
      [optStr "id",
       optStr "slug",
       optStr "time_start",
       optStr "time_end",
       floatDef "count" 10,
       strDef "interval" "5m",
       optStr "convert",
       optStr "convert_id"] }

/-- GET /v1/exchange/quotes/latest. -/
def quotes_latest : ToolSpec :=
  { toolName := "quotes_latest"
    path := "/v1/exchange/quotes/latest"
    endpoint := "/v1/exchange/quotes/latest"
    params :=
      [optStr "id",
       optStr "slug",
       optStr "convert",
       optStr "convert_id",
       strDef "aux" "num_market_pairs,traffic_score,rank,exchange_score,liquidity_score,effective_liquidity_24h"] }

/-- GET /v1/global-metrics/quotes/historical. -/
def quotes_historical_k8s0 : ToolSpec :=
  { toolName := "quotes_historical_k8s0"
    path := "/v1/global-metrics/quotes/historical"
    endpoint := "/v1/global-metrics/quotes/historical"
    params :=
      [optStr "time_start",
       optStr "time_end",
       floatDef "count" 10,
       strDef "interval" "1d",
       optStr "convert",
       optStr "convert_id",
       strDef "aux" "btc_dominance,eth_dominance,active_cryptocurrencies,active_exchanges,active_market_pairs,total_volume_24h,total_volume_24h_reported,altcoin_market_cap,altcoin_volume_24h,altcoin_volume_24h_reported"] }

/-- GET /v1/global-metrics/quotes/latest. -/
def quotes_latest_d46k : ToolSpec :=
  { toolName := "quotes_latest_d46k"
    path := "/v1/global-metrics/quotes/latest"
    endpoint := "/v1/global-metrics/quotes/latest"
    params := [optStr "convert", optStr "convert_id"] }

/-- GET /v2/cryptocurrency/market-pairs/latest. -/
def market_pairs_latest_v2 : ToolSpec :=
  { toolName := "market_pairs_latest_v2"
    path := "/v2/cryptocurrency/market-pairs/latest"
    endpoint := "/v2/cryptocurrency/market-pairs/latest"
    params :=
      [optStr "id",
       optStr "slug",
       optStr "symbol",
       intDef "start" 1,
       intDef "limit" 100,
       strDef "sort_dir" "desc",
       strDef "sort" "volume_24h_strict",
       strDef "aux" "num_market_pairs,category,fee_type",
       optStr "matched_id",
       optStr "matched_symbol",
       strDef "category" "all",
       strDef "fee_type" "all",
       optStr "convert",
       optStr "convert_id"] }

/-- GET /v2/cryptocurrency/ohlcv/historical. -/
def ohlcv_historical_v2 : ToolSpec :=
  { toolName := "ohlcv_historical_v2"
    path := "/v2/cryptocurrency/ohlcv/historical"
    endpoint := "/v2/cryptocurrency/ohlcv/historical"
    params :=
      [optStr "id",
       optStr "slug",
       optStr "symbol",
       strDef "time_period" "daily",
       optStr "time_start",
       optStr "time_end",
       floatDef "count" 10,
       strDef "interval" "daily",
       optStr "convert",
       optStr "convert_id",
       boolDef "skip_invalid" true] }

/-- GET /v2/cryptocurrency/ohlcv/latest. -/
def ohlcv_latest_v2 : ToolSpec :=
  { toolName := "ohlcv_latest_v2"
    path := "/v2/cryptocurrency/ohlcv/latest"
    endpoint := "/v2/cryptocurrency/ohlcv/latest"
    params :=
      [optStr "id",
       optStr "symbol",
       optStr "convert",
       optStr "convert_id",
       boolDef "skip_invalid" true] }

/-- GET /v2/cryptocurrency/price-performance-stats/latest. -/
def price_performance_stats_v2 : ToolSpec :=
  { toolName := "price_performance_stats_v2"
    path := "/v2/cryptocurrency/price-performance-stats/latest"
    endpoint := "/v2/cryptocurrency/price-performance-stats/latest"
    params :=
      [optStr "id",
       optStr "slug",
       optStr "symbol",
       strDef "time_period" "all_time",
       optStr "convert",
       optStr "convert_id",
       boolDef "skip_invalid" true] }

/-- GET /v2/cryptocurrency/quotes/historical. -/
def quotes_historical_v2 : ToolSpec :=
  { toolName := "quotes_historical_v2"
    path := "/v2/cryptocurrency/quotes/historical"
    endpoint := "/v2/cryptocurrency/quotes/historical"
    params :=
      [optStr "id",
       optStr "symbol",
       optStr "time_start",
       optStr "time_end",
       floatDef "count" 10,
       strDef "interval" "5m",
       optStr "convert",
       optStr "convert_id",
       strDef "aux" "price,volume,market_cap,circulating_supply,total_supply,quote_timestamp,is_active,is_fiat",
       boolDef "skip_invalid" true] }

/-- GET /v2/cryptocurrency/quotes/latest. -/
def quotes_latest_v2 : ToolSpec :=
  { toolName := "quotes_latest_v2"
    path := "/v2/cryptocurrency/quotes/latest"
    endpoint := "/v2/cryptocurrency/quotes/latest"
    params :=
      [optStr "id",
       optStr "slug",
       optStr "symbol",
       optStr "convert",
       optStr "convert_id",
       strDef "aux" "num_market_pairs,cmc_rank,date_added,tags,platform,max_supply,circulating_supply,total_supply,is_active,is_fiat",
       boolDef "skip_invalid" true] }

/-- GET /v3/cryptocurrency/quotes/historical. -/
def quotes_historical_v3 : ToolSpec :=
  { toolName := "quotes_historical_v3"
    path := "/v3/cryptocurrency/quotes/historical"
    endpoint := "/v3/cryptocurrency/quotes/historical"
    params :=
      [optStr "id",
       optStr "symbol",
       optStr "time_start",
       optStr "time_end",
       floatDef "count" 10,
       strDef "interval" "5m",
       optStr "convert",
       optStr "convert_id",
       strDef "aux" "price,volume,market_cap,circulating_supply,total_supply,quote_timestamp,is_active,is_fiat",
       boolDef "skip_invalid" true] }

/-- GET /v1/partners/flipside-crypto/fcas/listings/latest. -/
def fcas_listings_latest_deprecated : ToolSpec :=
  { toolName := "fcas_listings_latest_deprecated"
    path := "/v1/partners/flipside-crypto/fcas/listings/latest"
    endpoint := "/v1/partners/flipside-crypto/fcas/listings/latest"
    params :=
      [intDef "start" 1,
       intDef "limit" 100,
       strDef "aux" "point_change_24h,percent_change_24h"] }

/-- GET /v1/partners/flipside-crypto/fcas/quotes/latest. -/
def fcas_quotes_latest_deprecated : ToolSpec :=
  { toolName := "fcas_quotes_latest_deprecated"
    path := "/v1/partners/flipside-crypto/fcas/quotes/latest"
    endpoint := "/v1/partners/flipside-crypto/fcas/quotes/latest"
    params :=
      [optStr "id",
       optStr "slug",
       optStr "symbol",
       strDef "aux" "point_change_24h,percent_change_24h"] }

/-- All 27 generated tool handlers of server.py. -/
def toolCatalog : List ToolSpec :=
  [coinmarketcap_id_map,
   exchange_assets,
   coinmarketcap_id_map_10a0,
   coinmarketcap_id_map_0es7,
   key_info,
   postman_conversion_v1,
   cmc_crypto_fear_and_greed_historical,
   cmc_crypto_fear_and_greed_latest,
   listings_latest,
   listings_new,
   trending_gainers_losers,
   trending_latest,
   trending_most_visited,
   market_pairs_latest,
   quotes_historical,
   quotes_latest,
   quotes_historical_k8s0,
   quotes_latest_d46k,
   market_pairs_latest_v2,
   ohlcv_historical_v2,
   ohlcv_latest_v2,
   price_performance_stats_v2,
   quotes_historical_v2,
   quotes_latest_v2,
   quotes_historical_v3,
   fcas_listings_latest_deprecated,
   fcas_quotes_latest_deprecated]

/-- A supplied value matches a declared annotation: the MCP layer
(FastMCP with pydantic validation) only hands the handler a value of the
annotated type, or `None` for an `Optional[...]` parameter. -/
def tyMatches : PyTy → PyVal → Bool
  | .pstr, .vStr _ => true
  | .pint, .vInt _ => true
  | .pfloat, .vFloat _ _ _ => true
  | .pbool, .vBool _ => true
  | _, _ => false

/-- A caller-supplied argument set is well typed for a tool: every
supplied entry names a declared parameter and carries a value of its
annotated type (or `None` where the annotation is `Optional[...]`). -/
def wellTypedArgs (t : ToolSpec) (args : Args) : Prop :=
  ∀ kv ∈ args, ∃ p ∈ t.params,
    kv.1 = p.name ∧ (tyMatches p.ty kv.2 = true ∨ (p.optional = true ∧ kv.2 = PyVal.vNone))

instance (t : ToolSpec) (args : Args) : Decidable (wellTypedArgs t args) := by
  unfold wellTypedArgs
  infer_instance

/-- Decides whether `pat` occurs as a contiguous run at the head of `l`. -/
def headMatches : List Char → List Char → Bool
  | [], _ => true
  | _ :: _, [] => false
  | a :: as, b :: bs => a == b && headMatches as bs

/-- Decides whether `pat` occurs as a contiguous run anywhere in `l`. -/
def hasRun (l pat : List Char) : Bool :=
  match l with
  | [] => headMatches pat []
  | _ :: rest => headMatches pat l || hasRun rest pat

/-! Concrete upstream behaviours used to settle the scenario claims. -/

/-- A 300 Multiple Choices response (non-2xx, but outside the 4xx/5xx
range `raise_for_status` raises on) carrying a parseable JSON body. -/
def response300 : HttpResponse :=
  { status := 300
    reason := "Multiple Choices"
    respUrl := baseUrl ++ quotes_latest.path
    jsonResult := Except.ok (Json.jObj [("data", Json.jStr "choices")]) }

/-- A network answering every request with the 300 response. -/
def net300 : HttpRequest → HttpOutcome := fun _ => HttpOutcome.resp response300

/-- A 404 response whose body text is available to the client. -/
def response404 : HttpResponse :=
  { status := 404
    reason := "Not Found"
    respUrl := baseUrl ++ coinmarketcap_id_map.path
    jsonResult := Except.ok (Json.jObj [("status", Json.jStr "UPSTREAMBODYTEXT")]) }

/-- A network answering every request with the 404 response. -/
def net404 : HttpRequest → HttpOutcome := fun _ => HttpOutcome.resp response404

/-- A 503 response whose body is not valid JSON. -/
def response503 : HttpResponse :=
  { status := 503
    reason := "Service Unavailable"
    respUrl := baseUrl ++ coinmarketcap_id_map_10a0.path
    jsonResult := Except.error "Expecting value: line 1 column 1 (char 0)" }

/-- A network answering every request with the 503 response. -/
def net503 : HttpRequest → HttpOutcome := fun _ => HttpOutcome.resp response503

/-- The stubbed quotes_latest success body {"data": {"1": {"name": "Bitcoin"}}}. -/
def bodyBitcoin : Json :=
  Json.jObj [("data", Json.jObj [("1", Json.jObj [("name", Json.jStr "Bitcoin")])])]

/-- A 200 response delivering `bodyBitcoin`. -/
def response200 : HttpResponse :=
  { status := 200
    reason := "OK"
    respUrl := baseUrl ++ quotes_latest.path
    jsonResult := Except.ok bodyBitcoin }

/-- A network answering every request with the 200 response. -/
def net200 : HttpRequest → HttpOutcome := fun _ => HttpOutcome.resp response200

/-! Shared facts about the catalog and the normalizer. -/

/-- Within every handler of the catalog the declared parameter names are
pairwise distinct. -/
theorem catalog_param_names_nodup :
    ∀ t ∈ toolCatalog, (t.params.map Param.name).Nodup := by
  decide

/-- In the catalog, the params dict wraps a parameter in `str(x).lower()`
exactly when the parameter is bool-annotated. -/
theorem catalog_wrap_iff_pbool :
    ∀ t ∈ toolCatalog, ∀ p ∈ t.params,
      p.wrapStrLower = decide (p.ty = PyTy.pbool) := by
  decide

/-- Membership in the filtered params dict, unfolded. -/
theorem mem_normalizedQuery_iff {t : ToolSpec} {args : Args} {kv : String × PyVal} :
    kv ∈ normalizedQuery t args ↔
      ∃ p, p ∈ t.params ∧ kv = (p.name, entryValue args p) ∧
        entryValue args p ≠ PyVal.vNone := by
  simp only [normalizedQuery, buildParamsDict, List.mem_filter, List.mem_map,
    decide_eq_true_eq]
  constructor
  · rintro ⟨⟨p, hp, rfl⟩, hne⟩
    exact ⟨p, hp, rfl, hne⟩
  · rintro ⟨p, hp, rfl, hne⟩
    exact ⟨⟨p, hp, rfl⟩, hne⟩

/-- With no arguments supplied, every parameter binds to its default. -/
theorem paramPyValue_nil (p : Param) : paramPyValue [] p = p.dflt := rfl

/-- Distinct declared names make the name function injective on the
parameter list. -/
theorem param_name_inj {t : ToolSpec} (ht : t ∈ toolCatalog)
    {p q : Param} (hp : p ∈ t.params) (hq : q ∈ t.params)
    (h : p.name = q.name) : p = q :=
  List.inj_on_of_nodup_map (catalog_param_names_nodup t ht) hp hq h

/-- An unwrapped params-dict entry is just the bound value. -/
theorem entryValue_not_wrapped {args : Args} {p : Param} (h : p.wrapStrLower = false) :
    entryValue args p = paramPyValue args p := by
  simp [entryValue, h]

/-- A wrapped params-dict entry is the lowercased string of the bound
value. -/
theorem entryValue_wrapped {args : Args} {p : Param} (h : p.wrapStrLower = true) :
    entryValue args p = PyVal.vStr (pyStrLower (paramPyValue args p)) := by
  simp [entryValue, h]

/-- Every declared parameter whose entry survives the None filter
contributes its serialized entry to the outbound query. -/
theorem mem_outboundQuery_of_param {t : ToolSpec} {args : Args} {p : Param}
    (hp : p ∈ t.params) (hne : entryValue args p ≠ PyVal.vNone) :
    (p.name, pyStr (entryValue args p)) ∈ outboundQuery t args := by
  unfold outboundQuery
  exact List.mem_map.mpr ⟨(p.name, entryValue args p),
    mem_normalizedQuery_iff.mpr ⟨p, hp, rfl, hne⟩, rfl⟩

/-- A successful lookup pins down the bound value. -/
theorem paramPyValue_of_lookup {args : Args} {p : Param} {v : PyVal}
    (hv : lookupArg args p.name = some v) : paramPyValue args p = v := by
  unfold paramPyValue
  rw [hv]

/-- A looked-up value was supplied by the caller under the parameter's
name. -/
theorem lookup_mem_args {args : Args} {n : String} {v : PyVal}
    (hv : lookupArg args n = some v) : ∃ kv ∈ args, kv.1 = n ∧ kv.2 = v := by
  unfold lookupArg at hv
  rcases Option.map_eq_some'.mp hv with ⟨kv, hfind, h2⟩
  refine ⟨kv, List.mem_of_find?_eq_some hfind, ?_, h2⟩
  have hbeq := List.find?_some hfind
  exact beq_iff_eq.mp hbeq

/-- Under well-typed arguments, a looked-up value matches the declared
annotation of its parameter (or is None for an optional one). -/
theorem supplied_value_matches_ty {t : ToolSpec} (ht : t ∈ toolCatalog)
    {args : Args} (hwt : wellTypedArgs t args) {p : Param} (hp : p ∈ t.params)
    {v : PyVal} (hv : lookupArg args p.name = some v) :
    tyMatches p.ty v = true ∨ (p.optional = true ∧ v = PyVal.vNone) := by
  rcases lookup_mem_args hv with ⟨kv, hkv, hname, hval⟩
  rcases hwt kv hkv with ⟨q, hq, hnq, hty⟩
  have hqp : q = p := param_name_inj ht hq hp (by rw [← hnq]; exact hname)
  subst hqp
  subst hval
  exact hty

/-- C1: for every tool handler and every exception raised inside its try
block (the outbound call raising, `raise_for_status` raising, or
`response.json()` raising), the handler catches the exception and returns
a JSON object with exactly the two keys "error" (the exception rendered
as a string) and "endpoint" (a string); otherwise it returns the parsed
upstream body.  No exception escapes the invocation: `runTool` is total. -/
theorem c1_error_envelope_catches_all :
    ∀ t ∈ toolCatalog, ∀ (args : Args) (apiKey : Option String)
      (net : HttpRequest → HttpOutcome),
      (∃ r j, net (mkRequest t args apiKey) = HttpOutcome.resp r ∧
          raiseForStatusMsg r = none ∧ r.jsonResult = Except.ok j ∧
          (runTool t args apiKey net).1 = j) ∨
      (∃ msg, (runTool t args apiKey net).1 = errorEnvelope msg t.endpoint ∧
          jsonTopKeys (runTool t args apiKey net).1 = ["error", "endpoint"]) := by
  intro t _ args apiKey net
  simp only [runTool, toolResponse]
  cases hnet : net (mkRequest t args apiKey) with
  | raised msg => exact Or.inr ⟨msg, rfl, rfl⟩
  | resp r =>
    cases hstat : raiseForStatusMsg r with
    | some msg =>
      simp only [hstat]
      exact Or.inr ⟨msg, rfl, rfl⟩
    | none =>
      simp only [hstat]
      cases hjson : r.jsonResult with
      | ok j =>
        simp only [hjson]
        exact Or.inl ⟨r, j, rfl, hstat, hjson, rfl⟩
      | error msg =>
        simp only [hjson]
        exact Or.inr ⟨msg, rfl, rfl⟩

/-- Witness for C1 at a concrete handler and a concrete transport
failure: the result is the two-key error envelope. -/
theorem c1_error_envelope_catches_all_witness :
    coinmarketcap_id_map ∈ toolCatalog ∧
      ((∃ r j,
          (fun _ => HttpOutcome.raised "Connection refused")
              (mkRequest coinmarketcap_id_map [] none) = HttpOutcome.resp r ∧
          raiseForStatusMsg r = none ∧ r.jsonResult = Except.ok j ∧
          (runTool coinmarketcap_id_map [] none
            (fun _ => HttpOutcome.raised "Connection refused")).1 = j) ∨
      (∃ msg,
          (runTool coinmarketcap_id_map [] none
            (fun _ => HttpOutcome.raised "Connection refused")).1 =
            errorEnvelope msg coinmarketcap_id_map.endpoint ∧
          jsonTopKeys (runTool coinmarketcap_id_map [] none
            (fun _ => HttpOutcome.raised "Connection refused")).1 =
            ["error", "endpoint"])) :=
  ⟨by decide,
   c1_error_envelope_catches_all coinmarketcap_id_map (by decide) [] none
     (fun _ => HttpOutcome.raised "Connection refused")⟩

/-- C6: every handler issues its outbound request with the fixed literal
`timeout=30`, and when the request raises (timeout or transport failure)
the handler returns the failure envelope carrying the exception's
message, never propagating the exception. -/
theorem c6_timeout_thirty_and_transport_envelope :
    ∀ t ∈ toolCatalog, ∀ (args : Args) (apiKey : Option String)
      (net : HttpRequest → HttpOutcome) (msg : String),
      (mkRequest t args apiKey).timeout = 30 ∧
      (net (mkRequest t args apiKey) = HttpOutcome.raised msg →
        runTool t args apiKey net =
          (errorEnvelope msg t.endpoint, [mkRequest t args apiKey])) := by
  intro t _ args apiKey net msg
  refine ⟨rfl, fun h => ?_⟩
  simp only [runTool, toolResponse, h]

/-- Witness for C6: a concrete timeout exception on a concrete handler
yields the envelope, and the issued request carries timeout 30. -/
theorem c6_timeout_thirty_and_transport_envelope_witness :
    (mkRequest exchange_assets [] (some "k") ).timeout = 30 ∧
      runTool exchange_assets [] (some "k")
          (fun _ => HttpOutcome.raised "HTTPSConnectionPool: Read timed out. (read timeout=30)") =
        (errorEnvelope "HTTPSConnectionPool: Read timed out. (read timeout=30)"
          exchange_assets.endpoint,
         [mkRequest exchange_assets [] (some "k")]) := by
  have h := c6_timeout_thirty_and_transport_envelope exchange_assets (by decide) [] (some "k")
    (fun _ => HttpOutcome.raised "HTTPSConnectionPool: Read timed out. (read timeout=30)")
    "HTTPSConnectionPool: Read timed out. (read timeout=30)"
  exact ⟨h.1, h.2 rfl⟩

/-- C7: whenever a credential resolves (a non-empty key), the single
outbound request is a GET to the tool's fixed upstream URL and carries
the same credential under exactly the three header names
X-CMC_PRO_API_KEY, Authorization (bearer form) and X-API-Key. -/
theorem c7_three_auth_headers :
    ∀ t ∈ toolCatalog, ∀ (args : Args) (k : String), k ≠ "" →
      (mkRequest t args (some k)).method = "GET" ∧
      (mkRequest t args (some k)).url = baseUrl ++ t.path ∧
      (mkRequest t args (some k)).headers =
        [("X-CMC_PRO_API_KEY", k),
         ("Authorization", "Bearer " ++ k),
         ("X-API-Key", k)] := by
  intro t _ args k hk
  refine ⟨rfl, rfl, ?_⟩
  simp [mkRequest, buildHeaders, hk]

/-- Witness for C7 at a concrete handler and key. -/
theorem c7_three_auth_headers_witness :
    "secret" ≠ "" ∧
      ((mkRequest key_info [] (some "secret")).method = "GET" ∧
       (mkRequest key_info [] (some "secret")).url = baseUrl ++ key_info.path ∧
       (mkRequest key_info [] (some "secret")).headers =
         [("X-CMC_PRO_API_KEY", "secret"),
          ("Authorization", "Bearer " ++ "secret"),
          ("X-API-Key", "secret")]) :=
  ⟨by decide, c7_three_auth_headers key_info (by decide) [] "secret" (by decide)⟩

/-- C8: every invocation issues exactly one outbound request — the trace
of network calls of `runTool` is a one-element list whatever the
arguments, credential and network behaviour, so nothing is retried. -/
theorem c8_exactly_one_network_call :
    ∀ t ∈ toolCatalog, ∀ (args : Args) (apiKey : Option String)
      (net : HttpRequest → HttpOutcome),
      (runTool t args apiKey net).2 = [mkRequest t args apiKey] ∧
      (runTool t args apiKey net).2.length = 1 := by
  intro t _ args apiKey net
  exact ⟨rfl, rfl⟩

/-- Witness for C8 at a concrete handler, including a failing network
(the failure is not retried: still one call). -/
theorem c8_exactly_one_network_call_witness :
    (runTool listings_latest [] none (fun _ => HttpOutcome.raised "boom")).2 =
        [mkRequest listings_latest [] none] ∧
      (runTool listings_latest [] none (fun _ => HttpOutcome.raised "boom")).2.length = 1 :=
  c8_exactly_one_network_call listings_latest (by decide) [] none
    (fun _ => HttpOutcome.raised "boom")

/-- C10: when no credential resolves (`None` or the empty string — both
falsy under Python `if api_key:`), the outbound request is still issued,
with an empty header map: none of the three auth headers is attached. -/
theorem c10_no_credential_no_headers :
    ∀ t ∈ toolCatalog, ∀ (args : Args) (apiKey : Option String)
      (net : HttpRequest → HttpOutcome),
      apiKey = none ∨ apiKey = some "" →
      (runTool t args apiKey net).2 = [mkRequest t args apiKey] ∧
      (mkRequest t args apiKey).headers = [] := by
  intro t _ args apiKey net hk
  rcases hk with rfl | rfl
  · exact ⟨rfl, rfl⟩
  · exact ⟨rfl, by simp [mkRequest, buildHeaders]⟩

/-- Witness for C10: the empty-string credential still issues the single
request, with no headers. -/
theorem c10_no_credential_no_headers_witness :
    ((some "" : Option String) = none ∨ (some "" : Option String) = some "") ∧
      ((runTool postman_conversion_v1 [] (some "")
          (fun _ => HttpOutcome.raised "x")).2 =
        [mkRequest postman_conversion_v1 [] (some "")] ∧
       (mkRequest postman_conversion_v1 [] (some "")).headers = []) :=
  ⟨Or.inr rfl,
   c10_no_credential_no_headers postman_conversion_v1 (by decide) [] (some "")
     (fun _ => HttpOutcome.raised "x") (Or.inr rfl)⟩

/-- C2: called with no arguments, every handler's normalized query holds
exactly the parameters with a non-None default (each bound to that
default, bool defaults as their lowercase strings) and no other key; in
particular for coinmarketcap_id_map the keys are exactly listing_status,
start, sort, aux — limit and symbol are absent — with start "1" and sort
"id". -/
theorem c2_no_args_yields_exactly_defaults :
    (∀ t ∈ toolCatalog, ∀ p ∈ t.params,
        (p.dflt = PyVal.vNone ∧ p.wrapStrLower = false →
          p.name ∉ (normalizedQuery t []).map Prod.fst) ∧
        (p.dflt ≠ PyVal.vNone ∨ p.wrapStrLower = true →
          (p.name, entryValue [] p) ∈ normalizedQuery t [])) ∧
    (outboundQuery coinmarketcap_id_map []).map Prod.fst =
      ["listing_status", "start", "sort", "aux"] ∧
    ("start", "1") ∈ outboundQuery coinmarketcap_id_map [] ∧
    ("sort", "id") ∈ outboundQuery coinmarketcap_id_map [] ∧
    "limit" ∉ (outboundQuery coinmarketcap_id_map []).map Prod.fst ∧
    "symbol" ∉ (outboundQuery coinmarketcap_id_map []).map Prod.fst := by
  refine ⟨?_, by decide⟩
  intro t ht p hp
  constructor
  · rintro ⟨hd, hw⟩ hmem
    rcases List.mem_map.mp hmem with ⟨kv, hkv, hfst⟩
    rcases mem_normalizedQuery_iff.mp hkv with ⟨q, hq, rfl, hne⟩
    have hqp : q = p := param_name_inj ht hq hp hfst
    subst hqp
    exact hne (by rw [entryValue_not_wrapped hw, paramPyValue_nil, hd])
  · intro hor
    apply mem_normalizedQuery_iff.mpr
    refine ⟨p, hp, rfl, ?_⟩
    rcases hw : p.wrapStrLower with _ | _
    · have hd : p.dflt ≠ PyVal.vNone := by
        rcases hor with h | h
        · exact h
        · rw [hw] at h; cases h
      rw [entryValue_not_wrapped hw, paramPyValue_nil]
      exact hd
    · rw [entryValue_wrapped hw]
      intro h
      cases h

/-- Witness for C2's universal part at a concrete tool and parameter with
a default. -/
theorem c2_no_args_yields_exactly_defaults_witness :
    coinmarketcap_id_map_0es7 ∈ toolCatalog ∧
      boolDef "include_metals" false ∈ coinmarketcap_id_map_0es7.params ∧
      ((boolDef "include_metals" false).dflt ≠ PyVal.vNone ∨
        (boolDef "include_metals" false).wrapStrLower = true) ∧
      ((boolDef "include_metals" false).name,
          entryValue [] (boolDef "include_metals" false)) ∈
        normalizedQuery coinmarketcap_id_map_0es7 [] :=
  ⟨by decide, by decide, Or.inr rfl,
   ((c2_no_args_yields_exactly_defaults.1 coinmarketcap_id_map_0es7 (by decide)
      (boolDef "include_metals" false) (by decide)).2 (Or.inr rfl))⟩

/-- C3 counterexample: the claim fails as stated over "numbers rendered
as decimal text".  The well-typed float 1e-05 supplied for the
Optional[float] parameter price_min of listings_latest reaches the
outbound query as Python's str() rendering "1e-05" — exponent notation,
not plain decimal text. -/
theorem c3_counterexample_float_exponent_rendering :
    wellTypedArgs listings_latest [("price_min", PyVal.vFloat false 1 (-4))] ∧
      List.lookup "price_min"
          (outboundQuery listings_latest [("price_min", PyVal.vFloat false 1 (-4))]) =
        some "1e-05" ∧
      isDecimalText "1e-05" = false := by
  refine ⟨by decide, by decide, by decide⟩

/-- C3 (amended): under well-typed caller arguments, every supplied
non-absent value reaches the outbound query serialized to text — strings
verbatim, ints as decimal text, booleans as the literal lowercase
strings "true"/"false" (never Python's native `True`/`False` tokens,
because the source wraps every bool parameter in `str(x).lower()`), and
floats as Python's str() rendering, which is positional decimal only for
`-4 < decpt ≤ 16` and exponent notation outside that range. -/
theorem c3_amended_supplied_values_serialized :
    ∀ t ∈ toolCatalog, ∀ (args : Args), wellTypedArgs t args →
      ∀ p ∈ t.params, ∀ v, lookupArg args p.name = some v →
        (∀ s, v = PyVal.vStr s → (p.name, s) ∈ outboundQuery t args) ∧
        (∀ n : Int, v = PyVal.vInt n → (p.name, toString n) ∈ outboundQuery t args) ∧
        (∀ ng sg dp, v = PyVal.vFloat ng sg dp →
          (p.name, pyFloatRepr ng sg dp) ∈ outboundQuery t args) ∧
        (∀ b, v = PyVal.vBool b →
          (p.name, if b then "true" else "false") ∈ outboundQuery t args) := by
  intro t ht args hwt p hp v hv
  have hpv : paramPyValue args p = v := paramPyValue_of_lookup hv
  have hty := supplied_value_matches_ty ht hwt hp hv
  have hwrap := catalog_wrap_iff_pbool t ht p hp
  refine ⟨?_, ?_, ?_, ?_⟩
  · rintro s rfl
    have hts : p.ty = PyTy.pstr := by
      rcases hty with h | ⟨_, h⟩
      · cases hty2 : p.ty <;> rw [hty2] at h <;> simp [tyMatches] at h
      · cases h
    have hw : p.wrapStrLower = false := by rw [hwrap, hts]; rfl
    have := mem_outboundQuery_of_param hp
      (by rw [entryValue_not_wrapped hw, hpv]; intro h; cases h)
    rwa [entryValue_not_wrapped hw, hpv] at this
  · rintro n rfl
    have hts : p.ty = PyTy.pint := by
      rcases hty with h | ⟨_, h⟩
      · cases hty2 : p.ty <;> rw [hty2] at h <;> simp [tyMatches] at h
      · cases h
    have hw : p.wrapStrLower = false := by rw [hwrap, hts]; rfl
    have := mem_outboundQuery_of_param hp
      (by rw [entryValue_not_wrapped hw, hpv]; intro h; cases h)
    rwa [entryValue_not_wrapped hw, hpv] at this
  · rintro ng sg dp rfl
    have hts : p.ty = PyTy.pfloat := by
      rcases hty with h | ⟨_, h⟩
      · cases hty2 : p.ty <;> rw [hty2] at h <;> simp [tyMatches] at h
      · cases h
    have hw : p.wrapStrLower = false := by rw [hwrap, hts]; rfl
    have := mem_outboundQuery_of_param hp
      (by rw [entryValue_not_wrapped hw, hpv]; intro h; cases h)
    rwa [entryValue_not_wrapped hw, hpv] at this
  · rintro b rfl
    have hts : p.ty = PyTy.pbool := by
      rcases hty with h | ⟨_, h⟩
      · cases hty2 : p.ty <;> rw [hty2] at h <;> simp [tyMatches] at h
      · cases h
    have hw : p.wrapStrLower = true := by rw [hwrap, hts]; rfl
    have := @mem_outboundQuery_of_param t args p hp
      (by rw [entryValue_wrapped hw]; intro h; cases h)
    rw [entryValue_wrapped hw, hpv] at this
    have hlow : pyStr (PyVal.vStr (pyStrLower (PyVal.vBool b))) =
        if b then "true" else "false" := by
      cases b <;> decide
    rwa [hlow] at this

/-- Witness for amended C3: a supplied float 1.05 reaches the outbound
query as the text "1.05", and a supplied boolean True as the lowercase
string "true". -/
theorem c3_amended_supplied_values_serialized_witness :
    (wellTypedArgs listings_latest [("price_max", PyVal.vFloat false 105 1)] ∧
      ("price_max", pyFloatRepr false 105 1) ∈
        outboundQuery listings_latest [("price_max", PyVal.vFloat false 105 1)] ∧
      pyFloatRepr false 105 1 = "1.05") ∧
    (wellTypedArgs coinmarketcap_id_map_0es7 [("include_metals", PyVal.vBool true)] ∧
      ("include_metals", "true") ∈
        outboundQuery coinmarketcap_id_map_0es7 [("include_metals", PyVal.vBool true)]) :=
  ⟨⟨by decide,
    (c3_amended_supplied_values_serialized listings_latest (by decide)
       [("price_max", PyVal.vFloat false 105 1)] (by decide)
       (optFloat "price_max") (by decide)
       (PyVal.vFloat false 105 1) (by decide)).2.2.1 false 105 1 rfl,
    by decide⟩,
   ⟨by decide,
    (c3_amended_supplied_values_serialized coinmarketcap_id_map_0es7 (by decide)
       [("include_metals", PyVal.vBool true)] (by decide)
       (boolDef "include_metals" false) (by decide)
       (PyVal.vBool true) (by decide)).2.2.2 true rfl⟩⟩

/-- C4: for every handler and every argument set, the normalized query
never carries a None value, and every key it carries is the name of a
declared parameter of that handler's endpoint. -/
theorem c4_query_keys_declared_and_non_none :
    ∀ t ∈ toolCatalog, ∀ (args : Args), ∀ kv ∈ normalizedQuery t args,
      kv.2 ≠ PyVal.vNone ∧ kv.1 ∈ t.params.map Param.name := by
  intro t _ args kv hkv
  rcases mem_normalizedQuery_iff.mp hkv with ⟨p, hp, rfl, hne⟩
  exact ⟨hne, List.mem_map.mpr ⟨p, hp, rfl⟩⟩

/-- Witness for C4 at a concrete handler, argument set and query entry. -/
theorem c4_query_keys_declared_and_non_none_witness :
    ("start", PyVal.vInt 7) ∈ normalizedQuery trending_latest [("start", PyVal.vInt 7)] ∧
      (PyVal.vInt 7 ≠ PyVal.vNone ∧
        "start" ∈ trending_latest.params.map Param.name) :=
  ⟨by decide,
   c4_query_keys_declared_and_non_none trending_latest (by decide)
     [("start", PyVal.vInt 7)] ("start", PyVal.vInt 7) (by decide)⟩

/-- C5 counterexample: the claim fails as stated over "any non-2xx
status".  A 300 response (non-2xx) with a JSON body passes
`raise_for_status` silently and its body IS returned as a success, not
the failure envelope; and even for a genuine 404 the envelope's message
carries the status but not the response body (here the body text
UPSTREAMBODYTEXT does not occur in the message). -/
theorem c5_counterexample_300_body_returned :
    (¬ (200 ≤ response300.status ∧ response300.status ≤ 299)) ∧
    (runTool quotes_latest [] (some "k") net300).1 =
      Json.jObj [("data", Json.jStr "choices")] ∧
    jsonTopKeys (runTool quotes_latest [] (some "k") net300).1 = ["data"] ∧
    (runTool coinmarketcap_id_map [] none net404).1 =
      errorEnvelope
        ("404" ++ (" Client Error: " ++ "Not Found" ++ " for url: " ++
          (baseUrl ++ coinmarketcap_id_map.path)))
        "/v1/cryptocurrency/map" ∧
    hasRun
      ("404" ++ (" Client Error: " ++ "Not Found" ++ " for url: " ++
        (baseUrl ++ coinmarketcap_id_map.path))).data
      "UPSTREAMBODYTEXT".data = false := by
  refine ⟨by decide, rfl, rfl, rfl, by decide⟩

/-- C5 (amended): for every tool handler, when the upstream responds with
a 4xx or 5xx status, the handler returns the failure envelope whose
message starts with the decimal status code (followed by the reason and
URL; the response body is not part of the message), the returned value is
a well-formed JSON object with exactly the keys error and endpoint, and
the upstream body is never returned as a success in this case.  (A
non-2xx status outside 400-599, such as 300, is instead treated as a
success by `raise_for_status`.) -/
theorem c5_amended_4xx_5xx_yield_envelope :
    ∀ t ∈ toolCatalog, ∀ (args : Args) (apiKey : Option String)
      (net : HttpRequest → HttpOutcome) (r : HttpResponse),
      net (mkRequest t args apiKey) = HttpOutcome.resp r →
      400 ≤ r.status → r.status < 600 →
      ∃ rest, (runTool t args apiKey net).1 =
          errorEnvelope (toString r.status ++ rest) t.endpoint ∧
        jsonTopKeys (runTool t args apiKey net).1 = ["error", "endpoint"] := by
  intro t _ args apiKey net r hnet h4 h6
  simp only [runTool, toolResponse, hnet]
  by_cases h5 : r.status < 500
  · have hmsg : raiseForStatusMsg r =
        some (toString r.status ++
          (" Client Error: " ++ r.reason ++ " for url: " ++ r.respUrl)) := by
      unfold raiseForStatusMsg
      rw [if_pos ⟨h4, h5⟩]
    rw [hmsg]
    exact ⟨_, rfl, rfl⟩
  · have h5' : 500 ≤ r.status := Nat.le_of_not_lt h5
    have hmsg : raiseForStatusMsg r =
        some (toString r.status ++
          (" Server Error: " ++ r.reason ++ " for url: " ++ r.respUrl)) := by
      unfold raiseForStatusMsg
      rw [if_neg (fun h => h5 h.2), if_pos ⟨h5', h6⟩]
    rw [hmsg]
    exact ⟨_, rfl, rfl⟩

/-- Witness for amended C5 at a concrete handler and a concrete 503. -/
theorem c5_amended_4xx_5xx_yield_envelope_witness :
    net503 (mkRequest coinmarketcap_id_map_10a0 [] none) = HttpOutcome.resp response503 ∧
      400 ≤ response503.status ∧ response503.status < 600 ∧
      ∃ rest, (runTool coinmarketcap_id_map_10a0 [] none net503).1 =
          errorEnvelope (toString response503.status ++ rest)
            coinmarketcap_id_map_10a0.endpoint ∧
        jsonTopKeys (runTool coinmarketcap_id_map_10a0 [] none net503).1 =
          ["error", "endpoint"] :=
  ⟨rfl, by decide, by decide,
   c5_amended_4xx_5xx_yield_envelope coinmarketcap_id_map_10a0 (by decide) [] none net503
     response503 rfl (by decide) (by decide)⟩

/-- C9 counterexample: quotes_latest called with {id: "1"} does not
produce the outbound query {id: "1", aux: "rank"} — the handler's actual
aux default is the six-field list, so the pair ("aux", "rank") never
appears. -/
theorem c9_counterexample_aux_default_not_rank :
    outboundQuery quotes_latest [("id", PyVal.vStr "1")] ≠
        [("id", "1"), ("aux", "rank")] ∧
      ("aux", "rank") ∉ outboundQuery quotes_latest [("id", PyVal.vStr "1")] := by
  decide

/-- C9 (amended): quotes_latest called with {id: "1"} and nothing else
produces the outbound query {id: "1", aux:
"num_market_pairs,traffic_score,rank,exchange_score,liquidity_score,effective_liquidity_24h"}
(the explicit id plus the declared aux default, nothing else), and given
an upstream success whose parsed JSON is {"data": {"1": {"name":
"Bitcoin"}}}, returns exactly that body verbatim. -/
theorem c9_amended_quotes_latest_scenario :
    outboundQuery quotes_latest [("id", PyVal.vStr "1")] =
      [("id", "1"),
       ("aux", "num_market_pairs,traffic_score,rank,exchange_score,liquidity_score,effective_liquidity_24h")] ∧
    (runTool quotes_latest [("id", PyVal.vStr "1")] (some "k") net200).1 = bodyBitcoin :=
  ⟨by decide, rfl⟩

end CoinMcp
